import Mathlib

/-!
Verification development for the SciAnim animation engine (src/SciAnim.js).

The development shallowly embeds the interpolation and scheduling core:

* `STween` embeds the scalar-number restriction of the `Tween` class
  (the `typeof startValue === 'number'` branches), which is the value kind
  exercised by the scheduling claims.  The bound property is represented by
  the field `targetVal` (each tween owns its target's animated slot), the
  `onComplete` callback is observable through the counter `completeCount`,
  and `startValue`/`rawStartValue` (always equal numbers in this branch)
  are the single field `startVal : Option ℚ` (`none` embeds JS `null`).
* `STimeline` embeds the `Timeline` class with its entry list
  (`tweensWithMeta`), play-head, `isPlaying`, `timeScale`, `duration`,
  `loop`, and the `onCompleteCallback` counter.
* The record (generic-object) branch of `Tween.update` is embedded
  separately by `recInterp`/`recMerge`/`recordComplete`.
* The easing registry is embedded over the reals in the `RealEasing`
  section.

Machine numbers are embedded as exact rationals (reals for the easing
registry); the JS `NaN` regime (division by a zero duration) is excluded
by the `duration > 0` hypotheses, matching the spec's data-model invariant.
-/

/-- Embeds the JS expression `x || d` for numeric `x`: `0` is the only
falsy rational, so an absent or zero option falls back to `d`.  Used for
the `options.offset || this.duration` and `options.gap || 0` lines of
`Timeline.sequence` / `Timeline.parallel`. -/
def jsOr (o : Option ℚ) (d : ℚ) : ℚ :=
  match o with
  | none => d
  | some x => if x = 0 then d else x

/-- Truncation toward zero, as used by the JS `%` operator. -/
def qtrunc (x : ℚ) : ℤ :=
  if 0 ≤ x then ⌊x⌋ else ⌈x⌉

/-- Embeds the JS remainder `a % b` (truncated division); JS yields `NaN`
for `b = 0`, a regime outside every claim, embedded here as `0`. -/
def jsMod (a b : ℚ) : ℚ :=
  if b = 0 then 0 else a - b * (qtrunc (a / b) : ℚ)

/-- Embeds `Math.min(Math.max(0, p), 1)` from `Tween.setProgress`. -/
def clamp01 (p : ℚ) : ℚ := min (max 0 p) 1

/-- Scalar-number restriction of the `Tween` class state. -/
structure STween where
  /-- The bound property's current value (the tween's target slot). -/
  targetVal : ℚ
  /-- `this.endValue` (equal to `rawEndValue` for numbers). -/
  endVal : ℚ
  /-- `this.duration`. -/
  duration : ℚ
  /-- `this.easingFn`. -/
  easing : ℚ → ℚ
  /-- `this.elapsedTime`. -/
  elapsedTime : ℚ
  /-- `this.isActive`. -/
  isActive : Bool
  /-- `this.startValue` / `this.rawStartValue` (`none` embeds `null`). -/
  startVal : Option ℚ
  /-- Number of `onComplete` invocations so far (observability counter). -/
  completeCount : ℕ

/-- Embeds the `Tween` constructor (lines 730-747): fields are stored with
no validation whatsoever; in particular the duration is not checked. -/
def tweenNew (targetVal endVal duration : ℚ) (easing : ℚ → ℚ) : STween :=
  { targetVal := targetVal
    endVal := endVal
    duration := duration
    easing := easing
    elapsedTime := 0
    isActive := false
    startVal := none
    completeCount := 0 }

/-- Embeds `Tween.start()` in the number branch with an existing bound
property: captures `rawStartValue`/`startValue` from the target, clears
the clock and activates. -/
def STween.start (t : STween) : STween :=
  { t with startVal := some t.targetVal, elapsedTime := 0, isActive := true }

/-- Embeds `Tween.update(0)` — the call made at the end of
`Tween.setProgress` (a timeline-managed tween never advances its own
clock, and a standalone tween adds the delta `0`, so the two drive modes
coincide here).  Mirrors lines 852-950 restricted to the number branch:
early return when inactive; when `startValue` is `null` the value
dispatch falls through to the unsupported-type branch, which deactivates
and returns; otherwise the eased value is written back and, at progress
`≥ 1`, the exact `rawEndValue` is force-written, the tween deactivates
and `onComplete` fires. -/
def STween.update0 (t : STween) : STween :=
  if t.isActive = false then t
  else
    match t.startVal with
    | none => { t with isActive := false }
    | some sv =>
      let progress := min (t.elapsedTime / t.duration) 1
      let eased := t.easing progress
      let t1 := { t with targetVal := sv + (t.endVal - sv) * eased }
      if 1 ≤ progress then
        { t1 with isActive := false, targetVal := t.endVal,
                  completeCount := t1.completeCount + 1 }
      else t1

/-- Embeds `Tween.setProgress(p)` (lines 811-825): the forced-start
fallback, the reactivation guard, the clamped write of `elapsedTime`,
then delegation to `update(0)`. -/
def STween.setProgress (t : STween) (p : ℚ) : STween :=
  let t1 := if t.isActive = false ∧ 0 < p ∧ p < 1 ∧ t.startVal = none
            then t.start else t
  let t2 := if t1.isActive = false ∧ 0 < p ∧ p < 1
            then { t1 with isActive := true } else t1
  STween.update0 { t2 with elapsedTime := clamp01 p * t2.duration }

/-- Embeds `Tween.resetToStart()` (lines 828-849): clears the clock,
deactivates, and when a start value was captured writes it back through
the binding. -/
def STween.resetToStart (t : STween) : STween :=
  let t1 := { t with elapsedTime := 0, isActive := false }
  match t.startVal with
  | some s => { t1 with targetVal := s }
  | none => t1

/-- Embeds one element of `Timeline.tweensWithMeta`:
`{ tween, startTime, _hasStartedInternal }`. -/
structure Entry where
  tween : STween
  startTime : ℚ
  hasStarted : Bool

/-- Embeds the `Timeline` class state. -/
structure STimeline where
  entries : List Entry
  currentTime : ℚ
  isPlaying : Bool
  timeScale : ℚ
  duration : ℚ
  loop : Bool
  /-- Number of `onCompleteCallback` invocations (observability counter). -/
  completeCount : ℕ

/-- Embeds the `Timeline` constructor. -/
def timelineNew : STimeline :=
  { entries := [], currentTime := 0, isPlaying := false, timeScale := 1,
    duration := 0, loop := false, completeCount := 0 }

/-- Embeds `Timeline._recalculateDuration()`. -/
def recalcDuration (entries : List Entry) : ℚ :=
  entries.foldl (fun d e => max d (e.startTime + e.tween.duration)) 0

/-- Embeds `Timeline.add(tween, startTime)`: appends an entry with a fresh
`_hasStartedInternal` flag and eagerly recomputes the duration.  (The
`instanceof Tween` check is vacuous here since the argument is typed.) -/
def STimeline.add (tl : STimeline) (tw : STween) (startTime : ℚ) : STimeline :=
  let es := tl.entries ++ [{ tween := tw, startTime := startTime, hasStarted := false }]
  { tl with entries := es, duration := recalcDuration es }

/-- The loop body of `Timeline.sequence`: adds each tween at the running
time marker and advances the marker by the tween's duration plus the gap. -/
def seqAux (g : ℚ) : STimeline → ℚ → List STween → STimeline
  | tl, _, [] => tl
  | tl, marker, tw :: rest => seqAux g (tl.add tw marker) (marker + tw.duration + g) rest

/-- Embeds `Timeline.sequence(tweens, options)` (lines 995-1005), with the
JS falsy-default resolutions `options.offset || this.duration` and
`options.gap || 0`. -/
def STimeline.sequence (tl : STimeline) (tweens : List STween)
    (offset gap : Option ℚ) : STimeline :=
  seqAux (jsOr gap 0) tl (jsOr offset tl.duration) tweens

/-- The loop body of `Timeline.parallel`: adds every tween at the same
resolved offset. -/
def parAux : STimeline → ℚ → List STween → STimeline
  | tl, _, [] => tl
  | tl, off, tw :: rest => parAux (tl.add tw off) off rest

/-- Embeds `Timeline.parallel(tweens, options)` (lines 1007-1013). -/
def STimeline.parallel (tl : STimeline) (tweens : List STween)
    (offset : Option ℚ) : STimeline :=
  parAux tl (jsOr offset tl.duration) tweens

/-- Embeds the per-entry effect of `Timeline.resetAllTweensState()`. -/
def resetEntry (e : Entry) : Entry :=
  { e with tween := e.tween.resetToStart, hasStarted := false }

/-- Embeds `Timeline.resetAllTweensState()` (lines 1121-1126). -/
def STimeline.resetAll (tl : STimeline) : STimeline :=
  { tl with entries := tl.entries.map resetEntry }

/-- Embeds `Timeline.play()` (lines 1015-1022): a no-op while playing;
otherwise starts playing and, when the play-head already sits at or past
the duration of a non-looping timeline, rewinds to `0` and resets every
entry. -/
def STimeline.play (tl : STimeline) : STimeline :=
  if tl.isPlaying = true then tl
  else
    let tl1 := { tl with isPlaying := true }
    if tl1.duration ≤ tl1.currentTime ∧ tl1.loop = false then
      { tl1 with currentTime := 0, entries := tl1.entries.map resetEntry }
    else tl1

/-- Embeds `Timeline.playFromStart()`. -/
def STimeline.playFromStart (tl : STimeline) : STimeline :=
  { tl with currentTime := 0, entries := tl.entries.map resetEntry, isPlaying := true }

/-- Embeds `Timeline.pause()`. -/
def STimeline.pause (tl : STimeline) : STimeline :=
  { tl with isPlaying := false }

/-- Embeds the per-entry window rule of `Timeline.seek` (lines 1037-1061)
at play-head `c`: inside the window start once and set the local
progress; at or past the window end drive a started, still-active tween
to progress `1`, and catch up a never-started one with `start()` followed
by `setProgress(1)`; before the window reset a previously started tween. -/
def seekStep (c : ℚ) (e : Entry) : Entry :=
  let endT := e.startTime + e.tween.duration
  if e.startTime ≤ c ∧ c < endT then
    let e1 := if e.hasStarted = false
              then { e with tween := e.tween.start, hasStarted := true }
              else e
    { e1 with tween := e1.tween.setProgress ((c - e1.startTime) / e1.tween.duration) }
  else if endT ≤ c then
    if e.hasStarted = true ∧ e.tween.isActive = true then
      { e with tween := e.tween.setProgress 1 }
    else if e.hasStarted = false then
      { e with tween := (e.tween.start).setProgress 1, hasStarted := true }
    else e
  else
    if e.hasStarted = true then
      { e with tween := e.tween.resetToStart, hasStarted := false }
    else e

/-- Embeds `Timeline.seek(time)` (lines 1034-1062): clamps the play-head
into `[0, duration]` and re-evaluates every entry through the window rule. -/
def STimeline.seek (tl : STimeline) (time : ℚ) : STimeline :=
  let c := max 0 (min time tl.duration)
  { tl with currentTime := c, entries := tl.entries.map (seekStep c) }

/-- Embeds the per-entry part of the `Timeline.update` loop (lines
1070-1100) at play-head `c`.  Unlike `seekStep`, the past-the-window
branch only drives entries that have started and are still active — there
is no catch-up `start()` for a never-started entry.  (The `allComplete`
local of the source is written but never read, and the two trailing `if`
statements have empty bodies; they are omitted.)  The `tween.isActive =
true` assignment after `start()` is absorbed into `start`, which already
activates. -/
def updateStep (c : ℚ) (e : Entry) : Entry :=
  let endT := e.startTime + e.tween.duration
  if e.startTime ≤ c ∧ c < endT then
    let e1 := if e.hasStarted = false
              then { e with tween := e.tween.start, hasStarted := true }
              else e
    { e1 with tween := e1.tween.setProgress ((c - e1.startTime) / e1.tween.duration) }
  else if endT ≤ c then
    if e.hasStarted = true ∧ e.tween.isActive = true then
      { e with tween := e.tween.setProgress 1 }
    else e
  else
    if c < e.startTime ∧ e.hasStarted = true then
      { e with tween := e.tween.resetToStart, hasStarted := false }
    else e

/-- Embeds the final sweep of the non-looping completion branch of
`Timeline.update` (lines 1111-1115). -/
def finalizeStep (e : Entry) : Entry :=
  if e.hasStarted = true ∧ e.tween.isActive = true then
    { e with tween := e.tween.setProgress 1 }
  else e

/-- Embeds `Timeline.update(deltaTime)` (lines 1064-1119) with explicit
fuel for the recursive loop-wrap settle call `this.update(0)`.  When the
duration is positive the wrapped play-head lands strictly below the
duration, so the settle call never recurses again and fuel `2` reproduces
the source exactly; the fuel can only run out in the degenerate
`loop ∧ duration ≤ 0` regime (JS `NaN`), which no claim touches. -/
def updateAux : ℕ → ℚ → STimeline → STimeline
  | 0, _, tl => tl
  | fuel + 1, dt, tl =>
    if tl.isPlaying = false then tl
    else
      let c := tl.currentTime + dt * tl.timeScale
      let tl1 := { tl with currentTime := c, entries := tl.entries.map (updateStep c) }
      if tl1.duration ≤ c then
        if tl1.loop = true then
          updateAux fuel 0 ({ tl1 with currentTime := jsMod c tl1.duration }.resetAll)
        else
          { tl1 with isPlaying := false,
                     entries := tl1.entries.map finalizeStep,
                     completeCount := tl1.completeCount + 1 }
      else tl1

/-- Embeds `Timeline.update(deltaTime)`. -/
def STimeline.update (tl : STimeline) (dt : ℚ) : STimeline :=
  updateAux 2 dt tl

/-! ## Record (generic object) interpolation

Embedding of the generic-object branch of `Tween.update` (lines 891-904)
and the completion-time merge (lines 926-935).  A JS string is embedded
by its `parseColor` result: either a colour literal carrying the parsed
RGBA components, or a non-colour string (for which `parseColor` returns
`null`); the concrete hex/`rgb()` grammar is irrelevant to the claims. -/

/-- Parsed colour: 8-bit-range channel values and a float alpha, as
produced by `parseColor`. -/
structure ColorQ where
  r : ℚ
  g : ℚ
  b : ℚ
  a : ℚ
deriving DecidableEq

/-- A JS string value, abstracted by its `parseColor` behaviour. -/
inductive StrVal where
  /-- A string `parseColor` parses to the given components. -/
  | colorLit : ColorQ → StrVal
  /-- A string `parseColor` rejects (returns `null`). -/
  | plain : String → StrVal
deriving DecidableEq

/-- Embeds `parseColor` at the level of the `StrVal` abstraction. -/
def parseColorQ : StrVal → Option ColorQ
  | .colorLit c => some c
  | .plain _ => none

/-- Embeds `Math.round` (round half toward positive infinity). -/
def jsRound (x : ℚ) : ℚ := (⌊x + 1 / 2⌋ : ℤ)

/-- Embeds `parseFloat(a.toFixed(3))`: alpha rounded to three decimals. -/
def toFixed3 (x : ℚ) : ℚ := jsRound (x * 1000) / 1000

/-- Embeds `interpolateColor(color1, color2, factor)` (lines 67-77) on
already-parsed endpoints: channels blended linearly and rounded, alpha
blended and clamped to three decimals, re-serialised as an `rgba(...)`
string (which parses back to exactly these components). -/
def interpolateColorQ (c1 c2 : ColorQ) (f : ℚ) : StrVal :=
  .colorLit
    { r := jsRound (c1.r + f * (c2.r - c1.r))
      g := jsRound (c1.g + f * (c2.g - c1.g))
      b := jsRound (c1.b + f * (c2.b - c1.b))
      a := toFixed3 (c1.a + f * (c2.a - c1.a)) }

/-- A record sub-value: a number, a string, or any other JS value
(booleans, nested objects, ...), which the record branch never
interpolates. -/
inductive RVal where
  | num : ℚ → RVal
  | str : StrVal → RVal
  | other : ℕ → RVal
deriving DecidableEq

/-- Embeds the per-key dispatch of the record branch (lines 895-902): a
number pair blends linearly under the eased progress, a pair of strings
that both parse as colours goes through `interpolateColor`, and any other
pair is left at the start sub-value until `progress ≥ 1`, when it is set
to the end sub-value. -/
def subInterp (v w : RVal) (eased : ℚ) (pGe1 : Bool) : RVal :=
  match v, w with
  | .num a, .num b => .num (a + (b - a) * eased)
  | .str s, .str t =>
    match parseColorQ s, parseColorQ t with
    | some c1, some c2 => .str (interpolateColorQ c1 c2 eased)
    | _, _ => if pGe1 then .str t else .str s
  | v1, w1 => if pGe1 then w1 else v1

/-- Embeds `currentValue = { ...this.startValue }` followed by the
`for (const key in this.rawEndValue)` loop guarded by
`startValue.hasOwnProperty(key)`: the produced record has exactly the
start record's keys, with keys also present in the end record dispatched
through `subInterp`. -/
def recInterp (sv ev : List (String × RVal)) (eased : ℚ) (pGe1 : Bool) :
    List (String × RVal) :=
  sv.map fun kv =>
    (kv.1, match List.lookup kv.1 ev with
           | none => kv.2
           | some w => subInterp kv.2 w eased pGe1)

/-- Embeds the completion-time merge (lines 930-934): for every key of
the end record, the written record is updated to the exact end sub-value
— but only when the record already has that key
(`finalTargetObj.hasOwnProperty(key)`). -/
def recMerge (cur ev : List (String × RVal)) : List (String × RVal) :=
  cur.map fun kv =>
    (kv.1, match List.lookup kv.1 ev with
           | none => kv.2
           | some w => w)

/-- The bound record after an update with local progress `< 1` and eased
progress `eased`. -/
def recordAt (sv ev : List (String × RVal)) (eased : ℚ) :
    List (String × RVal) :=
  recInterp sv ev eased false

/-- The bound record after the update in which local progress reached `1`
(eased value `easedAtOne = easing 1`): the interpolation pass in its
`progress >= 1` mode followed by the merge. -/
def recordComplete (sv ev : List (String × RVal)) (easedAtOne : ℚ) :
    List (String × RVal) :=
  recMerge (recInterp sv ev easedAtOne true) ev

/-! ## Easing registry

Embedding of the base (non-overshoot) families of the `Easing` object
(lines 100-137) over the reals.  The JS `--t` / `t -=` in-place
decrements are written out as explicit subtractions. -/

noncomputable section RealEasing

def easeLinear (t : ℝ) : ℝ := t

def easeInQuad (t : ℝ) : ℝ := t * t

def easeOutQuad (t : ℝ) : ℝ := t * (2 - t)

def easeInOutQuad (t : ℝ) : ℝ :=
  if t < 0.5 then 2 * t * t else -1 + (4 - 2 * t) * t

def easeInCubic (t : ℝ) : ℝ := t * t * t

def easeOutCubic (t : ℝ) : ℝ := (t - 1) * (t - 1) * (t - 1) + 1

def easeInOutCubic (t : ℝ) : ℝ :=
  if t < 0.5 then 4 * t * t * t
  else (t - 1) * (2 * t - 2) * (2 * t - 2) + 1

def easeInQuart (t : ℝ) : ℝ := t * t * t * t

def easeOutQuart (t : ℝ) : ℝ := 1 - (t - 1) * (t - 1) * (t - 1) * (t - 1)

def easeInOutQuart (t : ℝ) : ℝ :=
  if t < 0.5 then 8 * t * t * t * t
  else 1 - 8 * (t - 1) * (t - 1) * (t - 1) * (t - 1)

def easeInQuint (t : ℝ) : ℝ := t * t * t * t * t

def easeOutQuint (t : ℝ) : ℝ :=
  1 + (t - 1) * (t - 1) * (t - 1) * (t - 1) * (t - 1)

def easeInOutQuint (t : ℝ) : ℝ :=
  if t < 0.5 then 16 * t * t * t * t * t
  else 1 + 16 * (t - 1) * (t - 1) * (t - 1) * (t - 1) * (t - 1)

def easeInSine (t : ℝ) : ℝ := 1 - Real.cos (t * Real.pi / 2)

def easeOutSine (t : ℝ) : ℝ := Real.sin (t * Real.pi / 2)

def easeInOutSine (t : ℝ) : ℝ := -(Real.cos (Real.pi * t) - 1) / 2

def easeInExpo (t : ℝ) : ℝ :=
  if t = 0 then 0 else (2 : ℝ) ^ (10 * (t - 1))

def easeOutExpo (t : ℝ) : ℝ :=
  if t = 1 then 1 else 1 - (2 : ℝ) ^ (-10 * t)

def easeInOutExpo (t : ℝ) : ℝ :=
  if t = 0 then 0
  else if t = 1 then 1
  else if t < 0.5 then (2 : ℝ) ^ (20 * t - 10) / 2
  else (2 - (2 : ℝ) ^ (-20 * t + 10)) / 2

def easeInCirc (t : ℝ) : ℝ := 1 - Real.sqrt (1 - t * t)

def easeOutCirc (t : ℝ) : ℝ := Real.sqrt (1 - (t - 1) * (t - 1))

def easeInOutCirc (t : ℝ) : ℝ :=
  if t < 0.5 then (1 - Real.sqrt (1 - 4 * t * t)) / 2
  else (Real.sqrt (1 - (-2 * t + 2) * (-2 * t + 2)) + 1) / 2

def easeOutBounce (t : ℝ) : ℝ :=
  if t < 1 / 2.75 then 7.5625 * t * t
  else if t < 2 / 2.75 then
    7.5625 * (t - 1.5 / 2.75) * (t - 1.5 / 2.75) + 0.75
  else if t < 2.5 / 2.75 then
    7.5625 * (t - 2.25 / 2.75) * (t - 2.25 / 2.75) + 0.9375
  else 7.5625 * (t - 2.625 / 2.75) * (t - 2.625 / 2.75) + 0.984375

def easeInBounce (t : ℝ) : ℝ := 1 - easeOutBounce (1 - t)

def easeInOutBounce (t : ℝ) : ℝ :=
  if t < 0.5 then easeInBounce (t * 2) * 0.5
  else easeOutBounce (t * 2 - 1) * 0.5 + 0.5

end RealEasing

/-! ## Concrete instances used by counterexamples and witnesses -/

/-- A scalar tween animating a bound property from its current value `0`
to `10` over one second with linear easing. -/
def demoTween : STween := tweenNew 0 10 1 (fun q => q)

/-- A timeline holding `demoTween` at start time `0` (duration `1`). -/
def demoTL : STimeline := timelineNew.add demoTween 0

/-! ## Claim theorems -/

/-- C4: for `Tween(target{x:0}, "x", 10, duration=2, linear).start()`,
`setProgress(0.5)` leaves the bound property at `5`; `setProgress(1)`
leaves it at exactly the end value `10`, deactivates the tween
(Completed), and fires the completion callback exactly once; a further
`setProgress(1)` fires no additional callback and leaves the value at
`10`. -/
theorem c4_setProgress_scenario :
    (((tweenNew 0 10 2 (fun q => q)).start).setProgress (1/2)).targetVal = 5 ∧
    ((((tweenNew 0 10 2 (fun q => q)).start).setProgress (1/2)).setProgress 1).targetVal = 10 ∧
    ((((tweenNew 0 10 2 (fun q => q)).start).setProgress (1/2)).setProgress 1).isActive = false ∧
    ((((tweenNew 0 10 2 (fun q => q)).start).setProgress (1/2)).setProgress 1).completeCount = 1 ∧
    (((((tweenNew 0 10 2 (fun q => q)).start).setProgress (1/2)).setProgress 1).setProgress 1).targetVal = 10 ∧
    (((((tweenNew 0 10 2 (fun q => q)).start).setProgress (1/2)).setProgress 1).setProgress 1).completeCount = 1 := by
  norm_num [tweenNew, STween.start, STween.setProgress, STween.update0, clamp01,
    min_def, max_def]

/-- C6 counterexample: constructing a tween with duration `0` does not
fail — the constructor stores the non-positive duration unvalidated, and
the resulting tween is not unusable: `start()` succeeds and activates it.
There is no `InvalidDuration` check anywhere in the source. -/
theorem c6_counterexample :
    (tweenNew 0 10 0 (fun q => q)).duration = 0 ∧
    (tweenNew 0 10 0 (fun q => q)).isActive = false ∧
    ((tweenNew 0 10 0 (fun q => q)).start).isActive = true := by
  norm_num [tweenNew, STween.start]

/-- C6 amended: the `Tween` constructor performs no validation of its
duration (or of any other argument): every field is stored exactly as
passed, with the tween created inactive, unstarted and with a clear
clock, for any duration including non-positive ones. -/
theorem c6_constructor_stores_unvalidated (tv ev d : ℚ) (e : ℚ → ℚ) :
    tweenNew tv ev d e =
      { targetVal := tv, endVal := ev, duration := d, easing := e,
        elapsedTime := 0, isActive := false, startVal := none,
        completeCount := 0 } := rfl

/-- C1 counterexample: a timeline with one entry of window `[0, 1)` and a
play-head driven to `T = 2 ≥ 1` via `play(); update(2)` leaves the entry
never activated (flag `false`, bound property still at its initial `0`),
whereas reaching the same region via `seek(2)` catches the entry up
(started, bound property at the end value `10`): region-3 behaviour is
not identical between `update` and `seek`, and `update` does not ensure
activation. -/
theorem c1_counterexample :
    (((demoTL.play).update 2).entries.map fun e => (e.hasStarted, e.tween.targetVal))
      = [(false, 0)] ∧
    (((demoTL.play).seek 2).entries.map fun e => (e.hasStarted, e.tween.targetVal))
      = [(true, 10)] := by
  norm_num [demoTL, demoTween, timelineNew, STimeline.add, recalcDuration,
    STimeline.play, STimeline.update, updateAux, updateStep, finalizeStep,
    STimeline.seek, seekStep, tweenNew, STween.start, STween.setProgress,
    STween.update0, STween.resetToStart, clamp01, min_def, max_def]

/-- C3 counterexample: on a non-looping timeline of duration `1`,
`play(); update(2)` returns with `currentTime = 2`, strictly above the
duration — `update` never clamps the play-head. -/
theorem c3_counterexample :
    ¬ ((demoTL.play).update 2).currentTime ≤ ((demoTL.play).update 2).duration := by
  norm_num [demoTL, demoTween, timelineNew, STimeline.add, recalcDuration,
    STimeline.play, STimeline.update, updateAux, updateStep, finalizeStep,
    tweenNew, STween.start, STween.setProgress, STween.update0,
    STween.resetToStart, clamp01, min_def, max_def]

/-! ## Evaluation lemmas for `STween.setProgress`

These characterise `setProgress` on each tween state arising in the
timeline window rule; all assume a positive duration where division by
the duration occurs. -/

theorem clamp01_of_mem (p : ℚ) (h0 : 0 ≤ p) (h1 : p ≤ 1) : clamp01 p = p := by
  simp [clamp01, max_eq_right h0, min_eq_left h1]

theorem setProgress_active_mid (t : STween) (sv p : ℚ)
    (hact : t.isActive = true) (hsv : t.startVal = some sv)
    (hd : 0 < t.duration) (hp0 : 0 ≤ p) (hp1 : p < 1) :
    t.setProgress p =
      { t with elapsedTime := p * t.duration,
               targetVal := sv + (t.endVal - sv) * t.easing p } := by
  obtain ⟨tv, evv, d, f, el, act, svv, cc⟩ := t
  dsimp only at hact hsv hd ⊢
  subst hact; subst hsv
  have hne : d ≠ 0 := ne_of_gt hd
  simp [STween.setProgress, STween.update0, clamp01_of_mem p hp0 hp1.le,
    mul_div_assoc, div_self hne, min_eq_left hp1.le, not_le.mpr hp1]

theorem setProgress_active_one (t : STween) (sv : ℚ)
    (hact : t.isActive = true) (hsv : t.startVal = some sv)
    (hd : 0 < t.duration) :
    t.setProgress 1 =
      { t with elapsedTime := t.duration, targetVal := t.endVal,
               isActive := false, completeCount := t.completeCount + 1 } := by
  obtain ⟨tv, evv, d, f, el, act, svv, cc⟩ := t
  dsimp only at hact hsv hd ⊢
  subst hact; subst hsv
  have hne : d ≠ 0 := ne_of_gt hd
  simp [STween.setProgress, STween.update0,
    clamp01_of_mem 1 (by norm_num) le_rfl, div_self hne]

theorem setProgress_active_none (t : STween) (p : ℚ)
    (hact : t.isActive = true) (hsv : t.startVal = none) :
    t.setProgress p = { t with elapsedTime := clamp01 p * t.duration,
                               isActive := false } := by
  obtain ⟨tv, evv, d, f, el, act, svv, cc⟩ := t
  dsimp only at hact hsv ⊢
  subst hact; subst hsv
  simp [STween.setProgress, STween.update0]

theorem setProgress_inactive_none_mid (t : STween) (p : ℚ)
    (hact : t.isActive = false) (hsv : t.startVal = none)
    (hd : 0 < t.duration) (hp0 : 0 < p) (hp1 : p < 1) :
    t.setProgress p =
      { t with startVal := some t.targetVal, isActive := true,
               elapsedTime := p * t.duration,
               targetVal := t.targetVal + (t.endVal - t.targetVal) * t.easing p } := by
  obtain ⟨tv, evv, d, f, el, act, svv, cc⟩ := t
  dsimp only at hact hsv hd ⊢
  subst hact; subst hsv
  have hne : d ≠ 0 := ne_of_gt hd
  simp [STween.setProgress, STween.start, STween.update0, hp0, hp1,
    clamp01_of_mem p hp0.le hp1.le, mul_div_assoc, div_self hne,
    min_eq_left hp1.le, not_le.mpr hp1]

theorem setProgress_inactive_some_mid (t : STween) (sv p : ℚ)
    (hact : t.isActive = false) (hsv : t.startVal = some sv)
    (hd : 0 < t.duration) (hp0 : 0 < p) (hp1 : p < 1) :
    t.setProgress p =
      { t with isActive := true, elapsedTime := p * t.duration,
               targetVal := sv + (t.endVal - sv) * t.easing p } := by
  obtain ⟨tv, evv, d, f, el, act, svv, cc⟩ := t
  dsimp only at hact hsv hd ⊢
  subst hact; subst hsv
  have hne : d ≠ 0 := ne_of_gt hd
  simp [STween.setProgress, STween.start, STween.update0, hp0, hp1,
    clamp01_of_mem p hp0.le hp1.le, mul_div_assoc, div_self hne,
    min_eq_left hp1.le, not_le.mpr hp1]

theorem setProgress_inactive_zero (t : STween)
    (hact : t.isActive = false) :
    t.setProgress 0 = { t with elapsedTime := 0 } := by
  obtain ⟨tv, evv, d, f, el, act, svv, cc⟩ := t
  dsimp only at hact ⊢
  subst hact
  simp [STween.setProgress, STween.update0, clamp01]

theorem setProgress_inactive_one (t : STween)
    (hact : t.isActive = false) :
    t.setProgress 1 = { t with elapsedTime := t.duration } := by
  obtain ⟨tv, evv, d, f, el, act, svv, cc⟩ := t
  dsimp only at hact ⊢
  subst hact
  simp [STween.setProgress, STween.update0,
    clamp01_of_mem 1 (by norm_num) le_rfl]

/-- C1 amended: for an entry with window `[s, s+d)` (`d > 0`) evaluated
at a play-head `c ≥ s+d`, the `seek` window rule ensures activation: it
always leaves the activation flag set, and a never-activated entry is
caught up with `start()` followed by `setProgress(1)`, leaving the bound
property at the exact end value with the completion callback fired once.
The `update` window rule has no such catch-up: a never-activated entry
whose window the play-head jumped past is left completely untouched, so
the region-3 behaviour of `update` and `seek` differs for never-activated
entries. -/
theorem c1_region3_seek_catches_up_update_does_not (c : ℚ) (e : Entry)
    (hwin : e.startTime + e.tween.duration ≤ c)
    (hd : 0 < e.tween.duration) :
    (seekStep c e).hasStarted = true ∧
    (e.hasStarted = false →
      seekStep c e =
        { e with tween := (e.tween.start).setProgress 1, hasStarted := true } ∧
      (seekStep c e).tween.targetVal = e.tween.endVal ∧
      (seekStep c e).tween.isActive = false ∧
      (seekStep c e).tween.completeCount = e.tween.completeCount + 1) ∧
    (e.hasStarted = false → updateStep c e = e) := by
  obtain ⟨tw, s, hs⟩ := e
  dsimp only at hwin hd ⊢
  have hnot2 : ¬ (s ≤ c ∧ c < s + tw.duration) := by
    rintro ⟨h1, h2⟩; linarith
  have hrun : (tw.start).setProgress 1 =
      { targetVal := tw.endVal, endVal := tw.endVal, duration := tw.duration,
        easing := tw.easing, elapsedTime := tw.duration, isActive := false,
        startVal := some tw.targetVal, completeCount := tw.completeCount + 1 } := by
    rw [setProgress_active_one _ tw.targetVal (by simp [STween.start])
      (by simp [STween.start]) (by simpa [STween.start] using hd)]
    simp [STween.start]
  cases hs with
  | false =>
    have hseek : seekStep c ⟨tw, s, false⟩ = ⟨(tw.start).setProgress 1, s, true⟩ := by
      simp [seekStep, hnot2, hwin]
    refine ⟨by simp [hseek], fun _ => ⟨hseek, ?_, ?_, ?_⟩, fun _ => ?_⟩
    · simp [hseek, hrun]
    · simp [hseek, hrun]
    · simp [hseek, hrun]
    · simp [updateStep, hnot2, hwin]
  | true =>
    refine ⟨?_, fun h => by simp at h, fun h => by simp at h⟩
    by_cases hact : tw.isActive = true
    · simp [seekStep, hnot2, hwin, hact]
    · simp [seekStep, hnot2, hwin, hact]

/-- Entry placing `demoTween` at start time `0`, not yet activated. -/
def demoEntry : Entry := ⟨demoTween, 0, false⟩

/-- Witness for the C1 amended theorem at play-head `2` past the window
`[0, 1)` of a never-activated entry. -/
theorem c1_region3_witness :
    (demoEntry.startTime + demoEntry.tween.duration ≤ 2 ∧
     0 < demoEntry.tween.duration) ∧
    ((seekStep 2 demoEntry).hasStarted = true ∧
     (demoEntry.hasStarted = false →
       seekStep 2 demoEntry =
         { demoEntry with tween := (demoEntry.tween.start).setProgress 1,
                          hasStarted := true } ∧
       (seekStep 2 demoEntry).tween.targetVal = demoEntry.tween.endVal ∧
       (seekStep 2 demoEntry).tween.isActive = false ∧
       (seekStep 2 demoEntry).tween.completeCount = demoEntry.tween.completeCount + 1) ∧
     (demoEntry.hasStarted = false → updateStep 2 demoEntry = demoEntry)) :=
  ⟨⟨by norm_num [demoEntry, demoTween, tweenNew],
    by norm_num [demoEntry, demoTween, tweenNew]⟩,
   c1_region3_seek_catches_up_update_does_not 2 demoEntry
     (by norm_num [demoEntry, demoTween, tweenNew])
     (by norm_num [demoEntry, demoTween, tweenNew])⟩

/-- C3 amended: `seek` clamps the play-head into `[0, duration]` (when the
duration is non-negative, which `_recalculateDuration` guarantees), but
`update` performs no clamping at all: while playing it always leaves
`currentTime = currentTime + dt * timeScale`, on a non-looping timeline
even when that value exceeds the duration (playback merely stops); when
not playing it is a no-op. -/
theorem c3_seek_clamps_update_does_not (tl : STimeline) (t dt : ℚ)
    (hdur : 0 ≤ tl.duration) :
    (0 ≤ (tl.seek t).currentTime ∧ (tl.seek t).currentTime ≤ tl.duration) ∧
    (tl.isPlaying = true → tl.loop = false →
      (tl.update dt).currentTime = tl.currentTime + dt * tl.timeScale) ∧
    (tl.isPlaying = false → tl.update dt = tl) := by
  refine ⟨⟨?_, ?_⟩, fun hp hl => ?_, fun hp => ?_⟩
  · exact le_max_left 0 _
  · exact max_le hdur (min_le_right t tl.duration)
  · simp only [STimeline.update, updateAux, hp, reduceCtorEq, if_false, hl]
    split_ifs <;> simp
  · simp [STimeline.update, updateAux, hp]

/-- Witness for the C3 amended theorem on the one-entry demo timeline. -/
theorem c3_clamp_witness :
    (0 ≤ demoTL.duration) ∧
    ((0 ≤ (demoTL.seek 5).currentTime ∧ (demoTL.seek 5).currentTime ≤ demoTL.duration) ∧
     (demoTL.isPlaying = true → demoTL.loop = false →
       (demoTL.update 2).currentTime = demoTL.currentTime + 2 * demoTL.timeScale) ∧
     (demoTL.isPlaying = false → demoTL.update 2 = demoTL)) :=
  ⟨by norm_num [demoTL, demoTween, timelineNew, STimeline.add, recalcDuration, tweenNew],
   c3_seek_clamps_update_does_not demoTL 5 2
     (by norm_num [demoTL, demoTween, timelineNew, STimeline.add, recalcDuration, tweenNew])⟩

/-! ## Region lemmas for the seek window rule -/

theorem seekStep_r2_unstarted (c : ℚ) (tw : STween) (s : ℚ)
    (h2 : s ≤ c ∧ c < s + tw.duration) :
    seekStep c ⟨tw, s, false⟩ =
      ⟨(tw.start).setProgress ((c - s) / tw.duration), s, true⟩ := by
  simp [seekStep, h2, STween.start]

theorem seekStep_r2_started (c : ℚ) (tw : STween) (s : ℚ)
    (h2 : s ≤ c ∧ c < s + tw.duration) :
    seekStep c ⟨tw, s, true⟩ =
      ⟨tw.setProgress ((c - s) / tw.duration), s, true⟩ := by
  simp [seekStep, h2]

theorem seekStep_r3_unstarted (c : ℚ) (tw : STween) (s : ℚ)
    (_hd : 0 < tw.duration) (h3 : s + tw.duration ≤ c) :
    seekStep c ⟨tw, s, false⟩ = ⟨(tw.start).setProgress 1, s, true⟩ := by
  have hnot2 : ¬ (s ≤ c ∧ c < s + tw.duration) := by
    rintro ⟨ha, hb⟩; linarith
  simp [seekStep, hnot2, h3]

theorem seekStep_r3_active (c : ℚ) (tw : STween) (s : ℚ)
    (_hd : 0 < tw.duration) (h3 : s + tw.duration ≤ c)
    (hact : tw.isActive = true) :
    seekStep c ⟨tw, s, true⟩ = ⟨tw.setProgress 1, s, true⟩ := by
  have hnot2 : ¬ (s ≤ c ∧ c < s + tw.duration) := by
    rintro ⟨ha, hb⟩; linarith
  simp [seekStep, hnot2, h3, hact]

theorem seekStep_r3_done (c : ℚ) (tw : STween) (s : ℚ)
    (_hd : 0 < tw.duration) (h3 : s + tw.duration ≤ c)
    (hact : tw.isActive = false) :
    seekStep c ⟨tw, s, true⟩ = ⟨tw, s, true⟩ := by
  have hnot2 : ¬ (s ≤ c ∧ c < s + tw.duration) := by
    rintro ⟨ha, hb⟩; linarith
  simp [seekStep, hnot2, h3, hact]

theorem seekStep_r1_started (c : ℚ) (tw : STween) (s : ℚ)
    (hd : 0 < tw.duration) (hc : c < s) :
    seekStep c ⟨tw, s, true⟩ = ⟨tw.resetToStart, s, false⟩ := by
  have hnot2 : ¬ (s ≤ c ∧ c < s + tw.duration) := by
    rintro ⟨ha, hb⟩; linarith
  have hnot3 : ¬ (s + tw.duration ≤ c) := by linarith
  simp [seekStep, hnot2, hnot3]

theorem seekStep_r1_unstarted (c : ℚ) (tw : STween) (s : ℚ)
    (hd : 0 < tw.duration) (hc : c < s) :
    seekStep c ⟨tw, s, false⟩ = ⟨tw, s, false⟩ := by
  have hnot2 : ¬ (s ≤ c ∧ c < s + tw.duration) := by
    rintro ⟨ha, hb⟩; linarith
  have hnot3 : ¬ (s + tw.duration ≤ c) := by linarith
  simp [seekStep, hnot2, hnot3]

theorem resetToStart_duration (t : STween) : (t.resetToStart).duration = t.duration := by
  cases h : t.startVal <;> simp [STween.resetToStart, h]

theorem resetToStart_isActive (t : STween) : (t.resetToStart).isActive = false := by
  cases h : t.startVal <;> simp [STween.resetToStart, h]

/-- An entry inside its window whose tween is active with a captured
start value, with clock and bound property already at the values the
window rule writes, is a fixpoint of the window rule. -/
theorem seekStep_r2_settled (c s : ℚ) (R : STween) (sv1 : ℚ)
    (h2 : s ≤ c ∧ c < s + R.duration) (hd : 0 < R.duration)
    (hact : R.isActive = true) (hsv : R.startVal = some sv1)
    (hel : R.elapsedTime = ((c - s) / R.duration) * R.duration)
    (htv : R.targetVal = sv1 + (R.endVal - sv1) * R.easing ((c - s) / R.duration)) :
    seekStep c ⟨R, s, true⟩ = ⟨R, s, true⟩ := by
  have hp0 : 0 ≤ (c - s) / R.duration := div_nonneg (by linarith [h2.1]) hd.le
  have hp1 : (c - s) / R.duration < 1 := (div_lt_one hd).mpr (by linarith [h2.2])
  rw [seekStep_r2_started c R s h2]
  rw [setProgress_active_mid R sv1 _ hact hsv hd hp0 hp1]
  obtain ⟨tv, ev, d, f, el, act, sv, cc⟩ := R
  dsimp only at hel htv ⊢
  subst hel; subst htv
  rfl

/-- An entry inside its window at local progress `0` whose tween is
inactive with a cleared clock is a fixpoint of the window rule. -/
theorem seekStep_r2_settled_zero (c s : ℚ) (R : STween)
    (h2 : s ≤ c ∧ c < s + R.duration) (hceq : c = s)
    (hact : R.isActive = false) (hel : R.elapsedTime = 0) :
    seekStep c ⟨R, s, true⟩ = ⟨R, s, true⟩ := by
  have hq : (c - s) / R.duration = 0 := by rw [hceq, sub_self, zero_div]
  rw [seekStep_r2_started c R s h2, hq, setProgress_inactive_zero R hact]
  obtain ⟨tv, ev, d, f, el, act, sv, cc⟩ := R
  dsimp only at hel ⊢
  subst hel
  rfl

/-- Idempotence of the per-entry seek window rule: re-applying the rule at
the same play-head is the identity on the entry produced by the first
application.  The hypotheses are the spec's data-model invariants: a
positive duration, and a captured start value on any active tween. -/
theorem seekStep_idem (c : ℚ) (e : Entry)
    (hd : 0 < e.tween.duration)
    (hinv : e.tween.isActive = true → e.tween.startVal ≠ none) :
    seekStep c (seekStep c e) = seekStep c e := by
  obtain ⟨tw, s, hs⟩ := e
  dsimp only at hd hinv
  by_cases hcs : c < s
  · -- region 1: before the window
    cases hs
    · rw [seekStep_r1_unstarted c tw s hd hcs]
      exact seekStep_r1_unstarted c tw s hd hcs
    · rw [seekStep_r1_started c tw s hd hcs]
      exact seekStep_r1_unstarted c tw.resetToStart s
        (by rw [resetToStart_duration]; exact hd) hcs
  · push_neg at hcs
    by_cases hce : c < s + tw.duration
    · -- region 2: inside the window
      have h2 : s ≤ c ∧ c < s + tw.duration := ⟨hcs, hce⟩
      have hp0 : 0 ≤ (c - s) / tw.duration :=
        div_nonneg (by linarith) hd.le
      have hp1 : (c - s) / tw.duration < 1 :=
        (div_lt_one hd).mpr (by linarith)
      cases hs
      · -- never started: catch-up start, then mid progress
        rw [seekStep_r2_unstarted c tw s h2]
        have hrun : (tw.start).setProgress ((c - s) / tw.duration) =
            ⟨tw.targetVal + (tw.endVal - tw.targetVal) * tw.easing ((c - s) / tw.duration),
             tw.endVal, tw.duration, tw.easing,
             ((c - s) / tw.duration) * tw.duration, true, some tw.targetVal,
             tw.completeCount⟩ := by
          rw [setProgress_active_mid _ tw.targetVal _ (by simp [STween.start])
            (by simp [STween.start]) (by simpa [STween.start] using hd) hp0 hp1]
          simp [STween.start]
        rw [hrun]
        exact seekStep_r2_settled c s _ tw.targetVal h2 hd rfl rfl rfl rfl
      · by_cases hact : tw.isActive = true
        · -- started and active
          obtain ⟨sv0, hsv⟩ := Option.ne_none_iff_exists'.mp (hinv hact)
          rw [seekStep_r2_started c tw s h2]
          rw [setProgress_active_mid tw sv0 _ hact hsv hd hp0 hp1]
          exact seekStep_r2_settled c s _ sv0 h2 hd hact hsv rfl rfl
        · have hact2 : tw.isActive = false := by
            simpa using hact
          by_cases hzero : c = s
          · -- local progress 0 on an inactive tween: only the clock moves
            have hq : (c - s) / tw.duration = 0 := by
              rw [hzero, sub_self, zero_div]
            rw [seekStep_r2_started c tw s h2, hq,
              setProgress_inactive_zero tw hact2]
            exact seekStep_r2_settled_zero c s _ h2 hzero hact2 rfl
          · have hp0' : 0 < (c - s) / tw.duration :=
              div_pos (by rcases lt_or_eq_of_le hcs with h | h
                          · linarith
                          · exact absurd h.symm hzero) hd
            cases hsv : tw.startVal with
            | none =>
              rw [seekStep_r2_started c tw s h2]
              rw [setProgress_inactive_none_mid tw _ hact2 hsv hd hp0' hp1]
              exact seekStep_r2_settled c s _ tw.targetVal h2 hd rfl rfl rfl rfl
            | some sv0 =>
              rw [seekStep_r2_started c tw s h2]
              rw [setProgress_inactive_some_mid tw sv0 _ hact2 hsv hd hp0' hp1]
              exact seekStep_r2_settled c s _ sv0 h2 hd rfl hsv rfl rfl
    · -- region 3: at or past the window end
      push_neg at hce
      cases hs
      · rw [seekStep_r3_unstarted c tw s hd hce]
        have hrun : (tw.start).setProgress 1 =
            ⟨tw.endVal, tw.endVal, tw.duration, tw.easing, tw.duration,
             false, some tw.targetVal, tw.completeCount + 1⟩ := by
          rw [setProgress_active_one _ tw.targetVal (by simp [STween.start])
            (by simp [STween.start]) (by simpa [STween.start] using hd)]
          simp [STween.start]
        rw [hrun]
        exact seekStep_r3_done c _ s hd hce rfl
      · by_cases hact : tw.isActive = true
        · obtain ⟨sv0, hsv⟩ := Option.ne_none_iff_exists'.mp (hinv hact)
          rw [seekStep_r3_active c tw s hd hce hact]
          rw [setProgress_active_one tw sv0 hact hsv hd]
          exact seekStep_r3_done c _ s hd hce rfl
        · have hact2 : tw.isActive = false := by simpa using hact
          rw [seekStep_r3_done c tw s hd hce hact2]
          exact seekStep_r3_done c tw s hd hce hact2

/-- C5: seeking to the same time twice is idempotent — the second `seek(t)`
returns the timeline (play-head, every entry flag, and every tween's full
state, including its bound property `targetVal` and its completion
counter `completeCount`) exactly as the first left it; in particular the
bound-property state is identical and no tween completion callback fires
again.  The hypotheses are the spec's data-model invariants on the
entries: positive tween durations and a captured start value on any
active tween. -/
theorem c5_seek_idempotent (tl : STimeline) (t : ℚ)
    (hwf : ∀ e ∈ tl.entries,
      0 < e.tween.duration ∧ (e.tween.isActive = true → e.tween.startVal ≠ none)) :
    (tl.seek t).seek t = tl.seek t := by
  obtain ⟨es, ct, pl, ts, dur, lp, cc⟩ := tl
  simp only [STimeline.seek, List.map_map]
  congr 1
  refine List.map_congr_left fun e he => ?_
  exact seekStep_idem _ e (hwf e he).1 (hwf e he).2

/-- Witness for C5 on the one-entry demo timeline at seek time `1/2`. -/
theorem c5_seek_idempotent_witness :
    (∀ e ∈ demoTL.entries,
      0 < e.tween.duration ∧ (e.tween.isActive = true → e.tween.startVal ≠ none)) ∧
    (demoTL.seek (1/2)).seek (1/2) = demoTL.seek (1/2) := by
  have h : ∀ e ∈ demoTL.entries,
      0 < e.tween.duration ∧ (e.tween.isActive = true → e.tween.startVal ≠ none) := by
    intro e he
    simp only [demoTL, demoTween, timelineNew, STimeline.add, tweenNew,
      recalcDuration, List.nil_append, List.mem_singleton] at he
    subst he
    norm_num
  exact ⟨h, c5_seek_idempotent demoTL (1/2) h⟩

theorem jsOr_some_zero (g : ℚ) : jsOr (some g) 0 = g := by
  by_cases h : g = 0 <;> simp [jsOr, h]

theorem jsOr_none (d : ℚ) : jsOr none d = d := rfl

/-- C7: `sequence([A,B,C], {gap: g})` appends three entries chained
back-to-back: the first at the timeline's duration at the moment of the
call (the default offset), the second at the first's start time plus
`A.duration + g`, the third at the second's start time plus
`B.duration + g`. -/
theorem c7_sequence_chaining (tl : STimeline) (A B C : STween) (g : ℚ) :
    ((tl.sequence [A, B, C] none (some g)).entries.drop tl.entries.length).map
        (fun e => e.startTime)
      = [tl.duration, tl.duration + A.duration + g,
         tl.duration + A.duration + g + B.duration + g] ∧
    ((tl.sequence [A, B, C] none (some g)).entries.drop tl.entries.length).map
        (fun e => e.tween) = [A, B, C] := by
  constructor <;>
    simp [STimeline.sequence, seqAux, jsOr_some_zero, jsOr_none, STimeline.add,
      List.append_assoc, List.drop_left]

theorem parAux_entries (off : ℚ) (ts : List STween) : ∀ tl : STimeline,
    (parAux tl off ts).entries
      = tl.entries ++ ts.map (fun tw => ⟨tw, off, false⟩) := by
  induction ts with
  | nil => intro tl; simp [parAux]
  | cons tw rest ih =>
    intro tl
    simp [parAux, ih, STimeline.add, List.append_assoc]

/-- C9: an explicitly supplied `offset: 0` is resolved through the JS `||`
default exactly like an omitted offset — both `sequence` and `parallel`
behave identically in the two cases, placing the new entries starting at
the timeline's current duration rather than at time `0`. -/
theorem c9_offset_zero_is_default (tl : STimeline) (ts : List STween)
    (g : Option ℚ) :
    tl.sequence ts (some 0) g = tl.sequence ts none g ∧
    tl.parallel ts (some 0) = tl.parallel ts none ∧
    (tl.parallel ts (some 0)).entries
      = tl.entries ++ ts.map (fun tw => ⟨tw, tl.duration, false⟩) := by
  refine ⟨?_, ?_, ?_⟩
  · simp [STimeline.sequence, jsOr]
  · simp [STimeline.parallel, jsOr]
  · simp [STimeline.parallel, jsOr, parAux_entries]

theorem resetToStart_elapsed (t : STween) : (t.resetToStart).elapsedTime = 0 := by
  cases h : t.startVal <;> simp [STween.resetToStart, h]

theorem resetToStart_targetVal_of_some (t : STween) (s : ℚ)
    (h : t.startVal = some s) : (t.resetToStart).targetVal = s := by
  simp [STween.resetToStart, h]

/-- C10: `play()` on a non-playing, non-looping timeline whose play-head
is at or past its duration rewinds before resuming: it resumes playback,
sets `currentTime` to `0`, and passes every entry through
`resetAllTweensState`, which deactivates each tween, clears its clock,
clears the activation flag, and writes each previously started tween's
captured start value back through its binding. -/
theorem c10_play_rewinds_at_end (tl : STimeline)
    (hp : tl.isPlaying = false) (hl : tl.loop = false)
    (hend : tl.duration ≤ tl.currentTime) :
    (tl.play).isPlaying = true ∧
    (tl.play).currentTime = 0 ∧
    (tl.play).entries = tl.entries.map resetEntry ∧
    ∀ e ∈ tl.entries,
      (resetEntry e).hasStarted = false ∧
      (resetEntry e).tween.isActive = false ∧
      (resetEntry e).tween.elapsedTime = 0 ∧
      ∀ s, e.tween.startVal = some s → (resetEntry e).tween.targetVal = s := by
  have hplay : tl.play =
      { tl with isPlaying := true, currentTime := 0,
                entries := tl.entries.map resetEntry } := by
    simp [STimeline.play, hp, hl, hend]
  refine ⟨by simp [hplay], by simp [hplay], by simp [hplay], fun e he => ?_⟩
  exact ⟨rfl, resetToStart_isActive e.tween, resetToStart_elapsed e.tween,
    fun s hs => resetToStart_targetVal_of_some e.tween s hs⟩

/-- Witness for C10 on the demo timeline after seeking to its end. -/
theorem c10_play_rewinds_witness :
    ((demoTL.seek 2).isPlaying = false ∧ (demoTL.seek 2).loop = false ∧
     (demoTL.seek 2).duration ≤ (demoTL.seek 2).currentTime) ∧
    (((demoTL.seek 2).play).isPlaying = true ∧
     ((demoTL.seek 2).play).currentTime = 0 ∧
     ((demoTL.seek 2).play).entries = (demoTL.seek 2).entries.map resetEntry ∧
     ∀ e ∈ (demoTL.seek 2).entries,
       (resetEntry e).hasStarted = false ∧
       (resetEntry e).tween.isActive = false ∧
       (resetEntry e).tween.elapsedTime = 0 ∧
       ∀ s, e.tween.startVal = some s → (resetEntry e).tween.targetVal = s) := by
  have h1 : (demoTL.seek 2).isPlaying = false := by
    simp [demoTL, demoTween, timelineNew, STimeline.add, STimeline.seek]
  have h2 : (demoTL.seek 2).loop = false := by
    simp [demoTL, demoTween, timelineNew, STimeline.add, STimeline.seek]
  have h3 : (demoTL.seek 2).duration ≤ (demoTL.seek 2).currentTime := by
    norm_num [demoTL, demoTween, timelineNew, STimeline.add, STimeline.seek,
      recalcDuration, tweenNew]
  exact ⟨⟨h1, h2, h3⟩, c10_play_rewinds_at_end (demoTL.seek 2) h1 h2 h3⟩

/-! ## Record interpolation lemmas (C2) -/

theorem lookup_map_keyed (l : List (String × RVal)) (f : String → RVal → RVal)
    (k : String) :
    List.lookup k (l.map fun kv => (kv.1, f kv.1 kv.2))
      = (List.lookup k l).map (f k) := by
  induction l with
  | nil => rfl
  | cons kv rest ih =>
    obtain ⟨k1, v1⟩ := kv
    by_cases h : k = k1
    · simp [List.lookup, h]
    · have hb : (k == k1) = false := beq_eq_false_iff_ne.mpr h
      simp [List.lookup, hb, ih]

theorem lookup_recInterp (sv ev : List (String × RVal)) (eased : ℚ) (b : Bool)
    (k : String) :
    List.lookup k (recInterp sv ev eased b)
      = (List.lookup k sv).map (fun v =>
          match List.lookup k ev with
          | none => v
          | some w => subInterp v w eased b) :=
  lookup_map_keyed sv
    (fun k1 v1 => match List.lookup k1 ev with
                  | none => v1
                  | some w => subInterp v1 w eased b) k

theorem lookup_recMerge (cur ev : List (String × RVal)) (k : String) :
    List.lookup k (recMerge cur ev)
      = (List.lookup k cur).map (fun v =>
          match List.lookup k ev with
          | none => v
          | some w => w) :=
  lookup_map_keyed cur
    (fun k1 v1 => match List.lookup k1 ev with
                  | none => v1
                  | some w => w) k

theorem lookup_recordComplete (sv ev : List (String × RVal)) (e1 : ℚ)
    (k : String) :
    List.lookup k (recordComplete sv ev e1)
      = (List.lookup k sv).map (fun v =>
          match List.lookup k ev with
          | none => v
          | some w => w) := by
  rw [recordComplete, lookup_recMerge, lookup_recInterp]
  cases List.lookup k sv <;> cases List.lookup k ev <;> simp

/-- The code's per-key interpolatability test: both numbers, or both
strings that `parseColor` accepts. -/
def interpOK : RVal → RVal → Bool
  | .num _, .num _ => true
  | .str s, .str t => (parseColorQ s).isSome && (parseColorQ t).isSome
  | _, _ => false

/-- C2 amended: while local progress is below `1`, only keys present in
both records with mutually interpolatable sub-values are interpolated
(`subInterp`), all other sub-values being left untouched, and keys
missing from either record stay as they are (keys only in `end` are never
added).  When progress reaches `1`, the merge force-sets the end value
only for keys present in **both** records: a key present only in the end
record remains absent from the bound record even after completion. -/
theorem c2_record_interpolation_and_merge (sv ev : List (String × RVal))
    (eased e1 : ℚ) (k : String) :
    (List.lookup k sv = none →
      List.lookup k (recordAt sv ev eased) = none ∧
      List.lookup k (recordComplete sv ev e1) = none) ∧
    (List.lookup k ev = none →
      List.lookup k (recordAt sv ev eased) = List.lookup k sv ∧
      List.lookup k (recordComplete sv ev e1) = List.lookup k sv) ∧
    (∀ v w, List.lookup k sv = some v → List.lookup k ev = some w →
      List.lookup k (recordAt sv ev eased) = some (subInterp v w eased false) ∧
      List.lookup k (recordComplete sv ev e1) = some w) ∧
    (∀ v w, interpOK v w = false → subInterp v w eased false = v) ∧
    (∀ a b, subInterp (.num a) (.num b) eased false
      = .num (a + (b - a) * eased)) ∧
    (∀ c1 c2, subInterp (.str (.colorLit c1)) (.str (.colorLit c2)) eased false
      = .str (interpolateColorQ c1 c2 eased)) := by
  refine ⟨fun h => ?_, fun h => ?_, fun v w hv hw => ?_, fun v w h => ?_,
    fun a b => rfl, fun c1 c2 => rfl⟩
  · simp [recordAt, lookup_recInterp, lookup_recordComplete, h]
  · constructor
    · rw [recordAt, lookup_recInterp, h]
      cases List.lookup k sv <;> simp
    · rw [lookup_recordComplete, h]
      cases List.lookup k sv <;> simp
  · simp [recordAt, lookup_recInterp, lookup_recordComplete, hv, hw]
  · cases v with
    | num a =>
      cases w with
      | num b => simp [interpOK] at h
      | str t => rfl
      | other n => rfl
    | str s =>
      cases w with
      | num b => rfl
      | str t =>
        cases hs : parseColorQ s <;> cases ht : parseColorQ t <;>
          simp [interpOK, hs, ht, subInterp] at h ⊢
      | other n => rfl
    | other m => cases w <;> rfl

/-- C2 counterexample: the claim that on completion *every* key present in
the end record holds exactly its end value fails — with start record
`{a: 0}` and end record `{a: 10, b: 5}`, the completed bound record is
`{a: 10}` and the key `b` is absent (the merge is guarded by
`hasOwnProperty` on the written record, which has only the start keys). -/
theorem c2_counterexample :
    ¬ (∀ (sv ev : List (String × RVal)) (e1 : ℚ) (k : String) (w : RVal),
        List.lookup k ev = some w →
        List.lookup k (recordComplete sv ev e1) = some w) := by
  intro h
  have hb := h [("a", RVal.num 0)] [("a", RVal.num 10), ("b", RVal.num 5)] 1 "b"
    (RVal.num 5) (by simp [List.lookup])
  rw [lookup_recordComplete] at hb
  simp [List.lookup] at hb

/-- Witness for the C2 amended theorem at a concrete record pair and key. -/
theorem c2_record_witness :
    (List.lookup "a" [("a", RVal.num 0)] = some (RVal.num 0) ∧
     List.lookup "a" [("a", RVal.num 10), ("b", RVal.num 5)] = some (RVal.num 10)) ∧
    (List.lookup "a"
        (recordAt [("a", RVal.num 0)] [("a", RVal.num 10), ("b", RVal.num 5)] (1/2))
      = some (subInterp (RVal.num 0) (RVal.num 10) (1/2) false) ∧
     List.lookup "a"
        (recordComplete [("a", RVal.num 0)] [("a", RVal.num 10), ("b", RVal.num 5)] 1)
      = some (RVal.num 10)) := by
  have h := (c2_record_interpolation_and_merge [("a", RVal.num 0)]
    [("a", RVal.num 10), ("b", RVal.num 5)] (1/2) 1 "a").2.2.1
    (RVal.num 0) (RVal.num 10) (by simp [List.lookup]) (by simp [List.lookup])
  exact ⟨⟨by simp [List.lookup], by simp [List.lookup]⟩, h⟩

/-! ## Easing endpoint lemmas (C8) -/

theorem easeLinear_zero : easeLinear 0 = 0 := by norm_num [easeLinear]

theorem easeLinear_one : easeLinear 1 = 1 := by norm_num [easeLinear]

theorem easeInQuad_zero : easeInQuad 0 = 0 := by norm_num [easeInQuad]

theorem easeInQuad_one : easeInQuad 1 = 1 := by norm_num [easeInQuad]

theorem easeOutQuad_zero : easeOutQuad 0 = 0 := by norm_num [easeOutQuad]

theorem easeOutQuad_one : easeOutQuad 1 = 1 := by norm_num [easeOutQuad]

theorem easeInOutQuad_zero : easeInOutQuad 0 = 0 := by norm_num [easeInOutQuad]

theorem easeInOutQuad_one : easeInOutQuad 1 = 1 := by norm_num [easeInOutQuad]

theorem easeInCubic_zero : easeInCubic 0 = 0 := by norm_num [easeInCubic]

theorem easeInCubic_one : easeInCubic 1 = 1 := by norm_num [easeInCubic]

theorem easeOutCubic_zero : easeOutCubic 0 = 0 := by norm_num [easeOutCubic]

theorem easeOutCubic_one : easeOutCubic 1 = 1 := by norm_num [easeOutCubic]

theorem easeInOutCubic_zero : easeInOutCubic 0 = 0 := by norm_num [easeInOutCubic]

theorem easeInOutCubic_one : easeInOutCubic 1 = 1 := by norm_num [easeInOutCubic]

theorem easeInQuart_zero : easeInQuart 0 = 0 := by norm_num [easeInQuart]

theorem easeInQuart_one : easeInQuart 1 = 1 := by norm_num [easeInQuart]

theorem easeOutQuart_zero : easeOutQuart 0 = 0 := by norm_num [easeOutQuart]

theorem easeOutQuart_one : easeOutQuart 1 = 1 := by norm_num [easeOutQuart]

theorem easeInOutQuart_zero : easeInOutQuart 0 = 0 := by norm_num [easeInOutQuart]

theorem easeInOutQuart_one : easeInOutQuart 1 = 1 := by norm_num [easeInOutQuart]

theorem easeInQuint_zero : easeInQuint 0 = 0 := by norm_num [easeInQuint]

theorem easeInQuint_one : easeInQuint 1 = 1 := by norm_num [easeInQuint]

theorem easeOutQuint_zero : easeOutQuint 0 = 0 := by norm_num [easeOutQuint]

theorem easeOutQuint_one : easeOutQuint 1 = 1 := by norm_num [easeOutQuint]

theorem easeInOutQuint_zero : easeInOutQuint 0 = 0 := by norm_num [easeInOutQuint]

theorem easeInOutQuint_one : easeInOutQuint 1 = 1 := by norm_num [easeInOutQuint]

theorem easeInSine_zero : easeInSine 0 = 0 := by
  simp [easeInSine, Real.cos_zero]

theorem easeInSine_one : easeInSine 1 = 1 := by
  simp [easeInSine, Real.cos_pi_div_two]

theorem easeOutSine_zero : easeOutSine 0 = 0 := by
  simp [easeOutSine, Real.sin_zero]

theorem easeOutSine_one : easeOutSine 1 = 1 := by
  simp [easeOutSine, Real.sin_pi_div_two]

theorem easeInOutSine_zero : easeInOutSine 0 = 0 := by
  simp [easeInOutSine, Real.cos_zero]

theorem easeInOutSine_one : easeInOutSine 1 = 1 := by
  simp [easeInOutSine, Real.cos_pi]

theorem easeInExpo_zero : easeInExpo 0 = 0 := by simp [easeInExpo]

theorem easeInExpo_one : easeInExpo 1 = 1 := by
  rw [easeInExpo, if_neg one_ne_zero,
    show (10 : ℝ) * (1 - 1) = 0 by norm_num, Real.rpow_zero]

theorem easeOutExpo_zero : easeOutExpo 0 = 0 := by
  rw [easeOutExpo, if_neg zero_ne_one,
    show (-10 : ℝ) * 0 = 0 by norm_num, Real.rpow_zero]
  norm_num

theorem easeOutExpo_one : easeOutExpo 1 = 1 := by simp [easeOutExpo]

theorem easeInOutExpo_zero : easeInOutExpo 0 = 0 := by simp [easeInOutExpo]

theorem easeInOutExpo_one : easeInOutExpo 1 = 1 := by
  rw [easeInOutExpo, if_neg one_ne_zero, if_pos rfl]

theorem easeInCirc_zero : easeInCirc 0 = 0 := by
  norm_num [easeInCirc, Real.sqrt_one]

theorem easeInCirc_one : easeInCirc 1 = 1 := by
  norm_num [easeInCirc, Real.sqrt_zero]

theorem easeOutCirc_zero : easeOutCirc 0 = 0 := by
  norm_num [easeOutCirc, Real.sqrt_zero]

theorem easeOutCirc_one : easeOutCirc 1 = 1 := by
  norm_num [easeOutCirc, Real.sqrt_one]

theorem easeInOutCirc_zero : easeInOutCirc 0 = 0 := by
  norm_num [easeInOutCirc, Real.sqrt_one]

theorem easeInOutCirc_one : easeInOutCirc 1 = 1 := by
  norm_num [easeInOutCirc, Real.sqrt_one]

theorem easeOutBounce_zero : easeOutBounce 0 = 0 := by
  norm_num [easeOutBounce]

theorem easeOutBounce_one : easeOutBounce 1 = 1 := by
  norm_num [easeOutBounce]

theorem easeInBounce_zero : easeInBounce 0 = 0 := by
  rw [easeInBounce, show (1 : ℝ) - 0 = 1 by norm_num, easeOutBounce_one]
  norm_num

theorem easeInBounce_one : easeInBounce 1 = 1 := by
  rw [easeInBounce, show (1 : ℝ) - 1 = 0 by norm_num, easeOutBounce_zero]
  norm_num

theorem easeInOutBounce_zero : easeInOutBounce 0 = 0 := by
  rw [easeInOutBounce, if_pos (by norm_num : (0 : ℝ) < 0.5),
    show (0 : ℝ) * 2 = 0 by norm_num, easeInBounce_zero]
  norm_num

theorem easeInOutBounce_one : easeInOutBounce 1 = 1 := by
  rw [easeInOutBounce, if_neg (by norm_num : ¬ (1 : ℝ) < 0.5),
    show (1 : ℝ) * 2 - 1 = 1 by norm_num, easeOutBounce_one]
  norm_num

/-- C8: every easing function of the base (non-overshoot) families —
linear, quad, cubic, quart, quint, sine, expo, circ, and bounce, in each
of their in/out/in-out variants — maps `0` to `0` and `1` to `1`. -/
theorem c8_base_easings_fix_endpoints :
    easeLinear 0 = 0 ∧ easeLinear 1 = 1 ∧
    easeInQuad 0 = 0 ∧ easeInQuad 1 = 1 ∧
    easeOutQuad 0 = 0 ∧ easeOutQuad 1 = 1 ∧
    easeInOutQuad 0 = 0 ∧ easeInOutQuad 1 = 1 ∧
    easeInCubic 0 = 0 ∧ easeInCubic 1 = 1 ∧
    easeOutCubic 0 = 0 ∧ easeOutCubic 1 = 1 ∧
    easeInOutCubic 0 = 0 ∧ easeInOutCubic 1 = 1 ∧
    easeInQuart 0 = 0 ∧ easeInQuart 1 = 1 ∧
    easeOutQuart 0 = 0 ∧ easeOutQuart 1 = 1 ∧
    easeInOutQuart 0 = 0 ∧ easeInOutQuart 1 = 1 ∧
    easeInQuint 0 = 0 ∧ easeInQuint 1 = 1 ∧
    easeOutQuint 0 = 0 ∧ easeOutQuint 1 = 1 ∧
    easeInOutQuint 0 = 0 ∧ easeInOutQuint 1 = 1 ∧
    easeInSine 0 = 0 ∧ easeInSine 1 = 1 ∧
    easeOutSine 0 = 0 ∧ easeOutSine 1 = 1 ∧
    easeInOutSine 0 = 0 ∧ easeInOutSine 1 = 1 ∧
    easeInExpo 0 = 0 ∧ easeInExpo 1 = 1 ∧
    easeOutExpo 0 = 0 ∧ easeOutExpo 1 = 1 ∧
    easeInOutExpo 0 = 0 ∧ easeInOutExpo 1 = 1 ∧
    easeInCirc 0 = 0 ∧ easeInCirc 1 = 1 ∧
    easeOutCirc 0 = 0 ∧ easeOutCirc 1 = 1 ∧
    easeInOutCirc 0 = 0 ∧ easeInOutCirc 1 = 1 ∧
    easeInBounce 0 = 0 ∧ easeInBounce 1 = 1 ∧
    easeOutBounce 0 = 0 ∧ easeOutBounce 1 = 1 ∧
    easeInOutBounce 0 = 0 ∧ easeInOutBounce 1 = 1 :=
  ⟨easeLinear_zero, easeLinear_one, easeInQuad_zero, easeInQuad_one, easeOutQuad_zero, easeOutQuad_one, easeInOutQuad_zero, easeInOutQuad_one, easeInCubic_zero, easeInCubic_one, easeOutCubic_zero, easeOutCubic_one, easeInOutCubic_zero, easeInOutCubic_one, easeInQuart_zero, easeInQuart_one, easeOutQuart_zero, easeOutQuart_one, easeInOutQuart_zero, easeInOutQuart_one, easeInQuint_zero, easeInQuint_one, easeOutQuint_zero, easeOutQuint_one, easeInOutQuint_zero, easeInOutQuint_one, easeInSine_zero, easeInSine_one, easeOutSine_zero, easeOutSine_one, easeInOutSine_zero, easeInOutSine_one, easeInExpo_zero, easeInExpo_one, easeOutExpo_zero, easeOutExpo_one, easeInOutExpo_zero, easeInOutExpo_one, easeInCirc_zero, easeInCirc_one, easeOutCirc_zero, easeOutCirc_one, easeInOutCirc_zero, easeInOutCirc_one, easeInBounce_zero, easeInBounce_one, easeOutBounce_zero, easeOutBounce_one, easeInOutBounce_zero, easeInOutBounce_one⟩
